import Mathlib

/-!
Verification development for the CourtListener MCP adapter
(`src/courtlistener-mcp/server.py`).

The Python source is shallowly embedded: each helper below models one
Python primitive or one function of the source, keeping the source's
names where Lean allows it.  Upstream HTTP behaviour is modelled as an
explicit environment of response functions, and every embedded tool
returns, besides its textual result, the list of upstream requests it
issued, so that "no network call" properties become statements about
that list.
-/

namespace CourtListener

/-- Models Python `sep.join(l)`. -/
def pyJoin (sep : String) : List String → String
  | [] => ""
  | [s] => s
  | s :: l => s ++ sep ++ pyJoin sep l

/-- Models Python `"\n".join(lines)`. -/
def joinLines (l : List String) : String := pyJoin "\n" l

/-- ASCII whitespace, as stripped by Python `str.strip()` on the strings
this program builds. -/
def isPySpace (c : Char) : Bool := c = ' ' || c = '\t' || c = '\n' || c = '\r'

/-- Models Python `s.strip()`: removes leading and trailing whitespace. -/
def pyStrip (s : String) : String :=
  ⟨(((s.data.dropWhile isPySpace).reverse.dropWhile isPySpace).reverse)⟩

/-- Models Python `s[:k]` (slicing with a possibly negative bound, by
code points). -/
def pySlice (s : String) (k : Int) : String :=
  if 0 ≤ k then ⟨s.data.take k.toNat⟩
  else ⟨s.data.take ((s.length : Int) + k).toNat⟩

/-- State machine for `re.sub(r"<[^>]+>", "", s)`: `none` means we are
scanning outside a candidate tag; `some buf` means we have read `'<'`
and then the (reversed) buffer `buf` of non-`'>'` characters. -/
def stripTagsGo : Option (List Char) → List Char → List Char
  | none, [] => []
  | some buf, [] => '<' :: buf.reverse
  | none, c :: rest =>
    if c = '<' then stripTagsGo (some []) rest
    else c :: stripTagsGo none rest
  | some buf, c :: rest =>
    if c = '>' then
      if buf = [] then '<' :: '>' :: stripTagsGo none rest
      else stripTagsGo none rest
    else stripTagsGo (some (c :: buf)) rest

/-- Models `re.sub(r"<[^>]+>", "", s)` (leftmost, non-overlapping
matches of `<[^>]+>` deleted). -/
def stripTags (s : String) : String := ⟨stripTagsGo none s.data⟩

/-- Models `re.sub(r"</?mark>", "", s)` on the character list. -/
def stripMarkGo : List Char → List Char
  | '<' :: '/' :: 'm' :: 'a' :: 'r' :: 'k' :: '>' :: rest => stripMarkGo rest
  | '<' :: 'm' :: 'a' :: 'r' :: 'k' :: '>' :: rest => stripMarkGo rest
  | c :: rest => c :: stripMarkGo rest
  | [] => []

/-- Models `re.sub(r"</?mark>", "", s)`. -/
def stripMark (s : String) : String := ⟨stripMarkGo s.data⟩

/-- Numeric value of a list of ASCII digits, as Python `int` on the
matched group. -/
def digitsToNat (l : List Char) : Nat :=
  l.foldl (fun n c => n * 10 + (c.toNat - '0'.toNat)) 0

/-- Models `re.search(r"/opinions/(\d+)/", url)`: scan left to right for
`"/opinions/"` followed by one or more digits followed by `'/'`; return
the numeric value of the digit group of the first match. -/
def parseOpinionId : List Char → Option Nat
  | [] => none
  | '/' :: rest =>
    if "opinions/".data.isPrefixOf rest then
      let rest2 := rest.drop 9
      let ds := rest2.takeWhile Char.isDigit
      if ds = [] then parseOpinionId rest
      else if (rest2.dropWhile Char.isDigit).head? = some '/' then
        some (digitsToNat ds)
      else parseOpinionId rest
    else parseOpinionId rest
  | _ :: rest => parseOpinionId rest

/-- Helper for `intComma`: input is the reversed digit list; `k` is the
number of digits still to emit before the next comma. -/
def commaRevGo : List Char → Nat → List Char
  | [], _ => []
  | c :: rest, 0 => ',' :: c :: commaRevGo rest 2
  | c :: rest, k + 1 => c :: commaRevGo rest k

/-- Input is the reversed digit list; inserts a comma after every third
digit. -/
def commaRev (l : List Char) : List Char := commaRevGo l 3

/-- Models Python `f"{n:,}"` for an `int`: thousands separators. -/
def intComma (i : Int) : String :=
  let s : List Char := (commaRev (toString i.natAbs).data.reverse).reverse
  if i < 0 then "-" ++ ⟨s⟩ else ⟨s⟩

/-!
## Data model

Records model the JSON payloads the server reads.  A field that the
source accesses as `d.get(key, default)` is modelled as `Option` when
the default matters (`getD default` at the access site); the opinion
text fields use plain `String` because their default is `""` and the
source only ever tests their truthiness, under which a missing/null
field and `""` behave identically.
-/

/-- A structured volume/reporter/page citation object. -/
structure CitObj where
  volume : Option String
  reporter : Option String
  page : Option String
deriving DecidableEq

/-- The value of `case.get("citations") or []` followed by the
`isinstance` dispatch in `format_search_results`: a falsy value, a list
of strings (or other non-dict values, already rendered by `str`), a
list whose elements are dicts (the source dispatches on the first
element), or a truthy non-list value rendered by `str`. -/
inductive CitesVal where
  | absent
  | strs (l : List String)
  | objs (l : List CitObj)
  | scalar (s : String)
deriving DecidableEq

/-- One search hit of the v4 `/search/` payload, with the fields
`format_search_results` reads.  `none` models a missing key. -/
structure SearchCase where
  caseName : Option String
  court : Option String
  dateFiled : Option String
  citations : CitesVal
  snippet : Option String
  citeCount : Option String
  citation_count : Option String
  cluster_id : Option String
  absolute_url : Option String
deriving DecidableEq

/-- The v4 search payload: `data.get("count", 0)` and
`data.get("results", [])`. -/
structure SearchData where
  count : Int
  results : List SearchCase
deriving DecidableEq

/-- A resolved cluster inside a citation-lookup entry. -/
structure Cluster where
  case_name : Option String
  date_filed : Option String
  id : Option Int
  absolute_url : Option String
  citations : List CitObj
deriving DecidableEq

/-- The value of `item.get("clusters")`: missing/falsy, a single
object, or a list of objects.  (`one` models a present, non-empty dict,
which is truthy in Python.) -/
inductive ClustersVal where
  | absent
  | one (c : Cluster)
  | many (l : List Cluster)
deriving DecidableEq

/-- One entry of the citation-lookup response list.  `status` is
`none` when the key is missing (the source then displays `"?"`, and
both comparisons `status == 200` / `status == 404` are false). -/
structure LookupItem where
  citation : Option String
  normalized_citations : List String
  status : Option Int
  clusters : ClustersVal
deriving DecidableEq

/-- Truthiness of the `clusters` value (`if clusters and ...`). -/
def clustersTruthy : ClustersVal → Bool
  | .absent => false
  | .one _ => true
  | .many l => !l.isEmpty

/-- Normalisation `if isinstance(clusters, dict): clusters = [clusters]`. -/
def clusterList : ClustersVal → List Cluster
  | .absent => []
  | .one c => [c]
  | .many l => l

/-- An opinion document.  The seven text fields are accessed as
`opinion_data.get(field, "")` and only tested for truthiness, so a
missing (or null) field is modelled as `""`. -/
structure OpinionPayload where
  plain_text : String
  html_with_citations : String
  html : String
  html_columbia : String
  html_lawbox : String
  html_anon_2020 : String
  xml_harvard : String
  author_str : String
  type : String
deriving DecidableEq

/-- A cluster document, as read by `get_case_text`.  An entry of
`sub_opinions` is `some url` when it is a string and `none` otherwise
(the source replaces a non-string first entry by `""`). -/
structure ClusterPayload where
  case_name : Option String
  date_filed : Option String
  absolute_url : Option String
  sub_opinions : List (Option String)
deriving DecidableEq

/-- Query parameters built by `_search_params`. -/
structure SearchParams where
  type : String
  q : String
  order_by : String
  court : Option String
  filed_after : Option String
  filed_before : Option String
  limit : Int
deriving DecidableEq

/-- An upstream HTTP request, identified by endpoint and arguments. -/
inductive Request where
  | search (params : SearchParams)
  | citationLookup (text : String)
  | cluster (id : Int)
  | opinion (id : Int)
deriving DecidableEq

/-- The outcome of one HTTP round trip, as distinguished by the
`except` clauses of `api_request`: a 2xx response with parsed JSON
body, a non-2xx response (`raise_for_status` raises
`httpx.HTTPStatusError`), a timeout (`httpx.TimeoutException`), or a
connection-level failure (`httpx.RequestError`, rendered by `str`). -/
inductive HttpOutcome (α : Type) where
  | ok (body : α)
  | httpError (code : Nat) (body : String)
  | timeout
  | connError (msg : String)

/-- The upstream server's behaviour: what each endpoint would answer. -/
structure Upstream where
  search : SearchParams → HttpOutcome SearchData
  citation : String → HttpOutcome (List LookupItem)
  cluster : Int → HttpOutcome ClusterPayload
  opinion : Int → HttpOutcome OpinionPayload

/-!
## Upstream Gateway (`api_request`, lines 61–89)
-/

/-- The configuration-error string for a missing credential. -/
def tokenErrMsg : String :=
  "Error: COURTLISTENER_API_TOKEN environment variable is not set."

/-- The `except` clauses of `api_request` (lines 77–89); the status
tests mirror the `if` cascade of lines 79–85. -/
def outcomeResult {α : Type} : HttpOutcome α → Except String α
  | .ok body => .ok body
  | .httpError code body =>
    if code = 401 then .error "Error: Invalid API token. Check COURTLISTENER_API_TOKEN."
    else if code = 429 then .error "Error: Rate limit exceeded. CourtListener allows 5,000 requests/day."
    else if code = 404 then .error "Error: Resource not found."
    else .error ("Error: HTTP " ++ toString code ++ " — " ++ pySlice body 300)
  | .timeout => .error "Error: Request timed out after 30 seconds."
  | .connError msg => .error ("Error: Connection failed — " ++ msg)

/-- `api_request` (lines 61–89): if the token is empty, return the
configuration error without touching the network; otherwise issue the
request (recorded in the returned list) and map its outcome.  The
second component is the list of HTTP requests actually issued. -/
def api_request {α : Type} (token : String) (req : Request) (outcome : HttpOutcome α) :
    Except String α × List Request :=
  if token = "" then (.error tokenErrMsg, [])
  else (outcomeResult outcome, [req])

/-!
## Response Normalizer (`format_search_results`, lines 92–130)
-/

/-- Rendering of one structured citation object (line 107):
`f"{c.get('volume','')} {c.get('reporter','')} {c.get('page','')}".strip()`. -/
def citObjStr (c : CitObj) : String :=
  pyStrip (c.volume.getD "" ++ " " ++ c.reporter.getD "" ++ " " ++ c.page.getD "")

/-- The list `cite_strs` (lines 103–113). -/
def citeStrs : CitesVal → List String
  | .absent => []
  | .strs l => l
  | .objs l => l.map citObjStr
  | .scalar s => [s]

/-- `citation_text = ", ".join(cite_strs) or "None"` (line 114). -/
def citationText (cv : CitesVal) : String :=
  if pyJoin ", " (citeStrs cv) = "" then "None" else pyJoin ", " (citeStrs cv)

/-- The body of a numbered block (lines 121–128, after the number). -/
def caseBlockBody (c : SearchCase) : String :=
  c.caseName.getD "Unknown"
    ++ " (" ++ c.court.getD "?" ++ ", " ++ c.dateFiled.getD "?" ++ ")\n"
    ++ "   Citations: " ++ citationText c.citations ++ "\n"
    ++ "   Cited by: " ++ c.citeCount.getD (c.citation_count.getD "0") ++ " cases\n"
    ++ "   Snippet: " ++ stripMark (c.snippet.getD "N/A") ++ "\n"
    ++ "   Cluster ID: " ++ c.cluster_id.getD "N/A" ++ "\n"
    ++ "   URL: https://www.courtlistener.com" ++ c.absolute_url.getD "" ++ "\n"

/-- The numbered block for result `c` at 1-based index `i`
(lines 120–128). -/
def caseBlock (i : Nat) (c : SearchCase) : String :=
  toString i ++ ". " ++ caseBlockBody c

/-- `for i, case in enumerate(results, 1)` (lines 102–128): one block
per result, numbered from `i`. -/
def numberFrom (i : Nat) : List SearchCase → List String
  | [] => []
  | c :: rest => caseBlock i c :: numberFrom (i + 1) rest

/-- `format_search_results` (lines 92–130). -/
def format_search_results (data : SearchData) (header : String) : String :=
  if data.results = [] then "No results found. " ++ header
  else
    joinLines (((header ++ " (" ++ toString data.count ++ " total results)") ++ "\n")
      :: numberFrom 1 data.results)

/-!
## Opinion-text extraction and assembly (`get_case_text`, lines 346–400)
-/

/-- The fixed priority list of HTML-bearing fields (lines 351–358),
paired with their values. -/
def htmlFields (opinion_data : OpinionPayload) : List (String × String) :=
  [("html_with_citations", opinion_data.html_with_citations),
   ("html", opinion_data.html),
   ("html_columbia", opinion_data.html_columbia),
   ("html_lawbox", opinion_data.html_lawbox),
   ("html_anon_2020", opinion_data.html_anon_2020),
   ("xml_harvard", opinion_data.xml_harvard)]

/-- Lines 346–366: prefer `plain_text`; otherwise strip tags from the
first truthy HTML field; error if the resulting `text` is falsy.  Note
that the source tests `if not text` after the loop, so a truthy HTML
field whose tag-stripped form is empty also yields the error. -/
def extractText (opinion_data : OpinionPayload) (opinion_id : Int) :
    Except String (String × String) :=
  let p :=
    if opinion_data.plain_text ≠ "" then (opinion_data.plain_text, "plain_text")
    else
      match (htmlFields opinion_data).find? (fun q => q.2 ≠ "") with
      | some (f, raw) => (stripTags raw, f)
      | none => ("", "plain_text")
  if p.1 = "" then
    .error ("Error: No text content available for opinion " ++ toString opinion_id ++ ".")
  else .ok p

/-- The metadata lines of the output (lines 378–388). -/
def metaLines (case_name date_filed author op_type source : String)
    (opinion_id : Int) : List String :=
  (if case_name ≠ "Unknown" then ["Case: " ++ case_name] else [])
    ++ (if date_filed ≠ "?" then ["Date: " ++ date_filed] else [])
    ++ (if author ≠ "" then ["Author: " ++ author] else [])
    ++ (if op_type ≠ "" then ["Opinion Type: " ++ op_type] else [])
    ++ ["Text Source: " ++ source, "Opinion ID: " ++ toString opinion_id]

/-- The truncation notice (lines 393–398), present only when the text
was truncated. -/
def noticeLines (truncated : Bool) (max_characters : Int) (case_url : String) :
    List String :=
  if truncated then
    ["\n[Truncated at " ++ intComma max_characters ++ " characters. Full opinion: "
      ++ (if case_url ≠ "" then "https://www.courtlistener.com" ++ case_url else "") ++ "]"]
  else []

/-- Lines 372–400: truncation and assembly of the final output. -/
def assemble (case_name date_filed author op_type source : String)
    (opinion_id : Int) (text0 : String) (max_characters : Int)
    (case_url : String) : String :=
  let truncated : Bool := (text0.length : Int) > max_characters
  let text := if truncated then pySlice text0 max_characters else text0
  joinLines (metaLines case_name date_filed author op_type source opinion_id
    ++ ["", "--- OPINION TEXT ---", text]
    ++ noticeLines truncated max_characters case_url)

/-!
## Tool Dispatch Surface (lines 133–150 and 158–430)
-/

/-- `_search_params` (lines 133–150): builds the query parameters; the
`limit` is clamped by `min(max(limit, 1), 20)`. -/
def _search_params (query court filed_after filed_before order_by : String)
    (limit : Int) : SearchParams :=
  { type := "o", q := query, order_by := order_by,
    court := if court ≠ "" then some court else none,
    filed_after := if filed_after ≠ "" then some filed_after else none,
    filed_before := if filed_before ≠ "" then some filed_before else none,
    limit := min (max limit 1) 20 }

/-- `search_cases` (lines 158–186). -/
def search_cases (token : String) (env : Upstream)
    (query court filed_after filed_before order_by : String) (limit : Int) :
    String × List Request :=
  let params := _search_params query court filed_after filed_before order_by limit
  match api_request token (Request.search params) (env.search params) with
  | (.error e, reqs) => (e, reqs)
  | (.ok data, reqs) =>
    (format_search_results data ("Search results for \"" ++ query ++ "\""), reqs)

/-- `semantic_search` (lines 252–280): identical to `search_cases` but
with the sort key fixed to `"score desc"` and a different header. -/
def semantic_search (token : String) (env : Upstream)
    (query court filed_after filed_before : String) (limit : Int) :
    String × List Request :=
  let params := _search_params query court filed_after filed_before "score desc" limit
  match api_request token (Request.search params) (env.search params) with
  | (.error e, reqs) => (e, reqs)
  | (.ok data, reqs) =>
    (format_search_results data ("Semantic search results for \"" ++ query ++ "\""), reqs)

/-- `find_citing_cases` (lines 403–430): a search with the query
`f"cites:({cluster_id})"`. -/
def find_citing_cases (token : String) (env : Upstream) (cluster_id : Int)
    (court filed_after filed_before order_by : String) (limit : Int) :
    String × List Request :=
  let params := _search_params ("cites:(" ++ toString cluster_id ++ ")")
    court filed_after filed_before order_by limit
  match api_request token (Request.search params) (env.search params) with
  | (.error e, reqs) => (e, reqs)
  | (.ok data, reqs) =>
    (format_search_results data ("Cases citing cluster " ++ toString cluster_id), reqs)

/-- Display of `item.get("status", "?")` / `cl.get("id", "?")`. -/
def optIntStr : Option Int → String
  | some n => toString n
  | none => "?"

/-- The block of lines for one resolved cluster (lines 227–243). -/
def formatClusterBlock (cl : Cluster) : List String :=
  ["\nCase: " ++ cl.case_name.getD "Unknown",
   "Date Filed: " ++ cl.date_filed.getD "?",
   "Citations: " ++ (if cl.citations = [] then "None"
     else pyJoin ", " (cl.citations.map citObjStr)),
   "Cluster ID: " ++ optIntStr cl.id]
  ++ (if cl.absolute_url.getD "" ≠ "" then
        ["URL: https://www.courtlistener.com" ++ cl.absolute_url.getD ""] else [])

/-- The lines appended for one lookup entry (the loop body,
lines 212–247). -/
def formatLookupItem (item : LookupItem) : List String :=
  ["Citation: " ++ item.citation.getD "?"]
    ++ (if item.normalized_citations ≠ [] then
          ["Normalized: " ++ pyJoin ", " item.normalized_citations] else [])
    ++ ["Status: " ++ optIntStr item.status]
    ++ (if clustersTruthy item.clusters ∧ item.status = some 200 then
          (clusterList item.clusters).flatMap formatClusterBlock
        else if item.status = some 404 then
          ["No matching case found for this citation."]
        else [])
    ++ [""]

/-- `lookup_citation` (lines 189–249). -/
def lookup_citation (token : String) (env : Upstream) (citation : String) :
    String × List Request :=
  match api_request token (Request.citationLookup citation) (env.citation citation) with
  | (.error e, reqs) => (e, reqs)
  | (.ok data, reqs) =>
    if data = [] then ("No cases found for citation: " ++ citation, reqs)
    else (pyStrip (joinLines (data.flatMap formatLookupItem)), reqs)

/-- Lines 306–335 of `get_case_text`: resolve the opinion id and the
cluster metadata.  When `opinion_id` is non-zero the cluster endpoint
is not consulted and the metadata keeps its initial values
(`"Unknown"`, `"?"`, `""`).  Returns the opinion id, case name, date
filed, case URL, and the requests issued so far. -/
def resolveOpinion (token : String) (env : Upstream)
    (cluster_id opinion_id : Int) :
    Except (String × List Request) (Int × String × String × String × List Request) :=
  if opinion_id = 0 then
    match api_request token (Request.cluster cluster_id) (env.cluster cluster_id) with
    | (.error e, reqs) => .error (e, reqs)
    | (.ok cluster_data, reqs) =>
      let case_name := cluster_data.case_name.getD "Unknown"
      let date_filed := cluster_data.date_filed.getD "?"
      let case_url := cluster_data.absolute_url.getD ""
      if cluster_data.sub_opinions = [] then
        .error ("Error: No opinions found in cluster " ++ toString cluster_id ++ ".", reqs)
      else
        let first_url := (cluster_data.sub_opinions.headD none).getD ""
        match parseOpinionId first_url.data with
        | some n => .ok ((n : Int), case_name, date_filed, case_url, reqs)
        | none => .error ("Error: Could not parse opinion ID from cluster data.", reqs)
  else .ok (opinion_id, "Unknown", "?", "", [])

/-- `get_case_text` (lines 283–400). -/
def get_case_text (token : String) (env : Upstream)
    (cluster_id opinion_id max_characters : Int) : String × List Request :=
  if cluster_id = 0 ∧ opinion_id = 0 then
    ("Error: Provide either cluster_id or opinion_id.", [])
  else
    match resolveOpinion token env cluster_id opinion_id with
    | .error (e, reqs) => (e, reqs)
    | .ok (oid, case_name, date_filed, case_url, reqs) =>
      match api_request token (Request.opinion oid) (env.opinion oid) with
      | (.error e, reqs2) => (e, reqs ++ reqs2)
      | (.ok opinion_data, reqs2) =>
        match extractText opinion_data oid with
        | .error e => (e, reqs ++ reqs2)
        | .ok (text, source) =>
          (assemble case_name date_filed opinion_data.author_str opinion_data.type
            source oid text max_characters case_url, reqs ++ reqs2)

/-!
## Generic helper lemmas
-/

/-- `String.append` acts as list append on the underlying data. -/
theorem data_append (s t : String) : (s ++ t).data = s.data ++ t.data := by
  cases s
  cases t
  rfl

/-- Taking `k ≤ |p|` characters of `p ++ a` ignores `a`. -/
theorem take_data_append (p a : String) (k : Nat) (hk : k ≤ p.data.length) :
    ((p ++ a).data).take k = p.data.take k := by
  rw [data_append]
  exact List.take_append_of_le_length hk

/-- A string differing from `q` on the first `k` characters is not of
the form `q ++ b`. -/
theorem ne_str_append (x q b : String) (k : Nat) (hk : k ≤ q.data.length)
    (h : x.data.take k ≠ q.data.take k) : x ≠ q ++ b := by
  intro he
  apply h
  have hd : x.data.take k = ((q ++ b).data).take k := by rw [he]
  rwa [take_data_append q b k hk] at hd

/-- Two appends with different `k`-prefixes are different strings. -/
theorem append_ne_append (p a q b : String) (k : Nat)
    (hk1 : k ≤ p.data.length) (hk2 : k ≤ q.data.length)
    (h : p.data.take k ≠ q.data.take k) : p ++ a ≠ q ++ b := by
  intro he
  apply h
  have hd : ((p ++ a).data).take k = ((q ++ b).data).take k := by rw [he]
  rwa [take_data_append p a k hk1, take_data_append q b k hk2] at hd

/-- A concrete upstream environment used by witnesses. -/
def envW : Upstream :=
  { search := fun _ => HttpOutcome.timeout,
    citation := fun _ => HttpOutcome.timeout,
    cluster := fun _ => HttpOutcome.timeout,
    opinion := fun _ => HttpOutcome.timeout }

/-!
## Claims
-/

/-- Claim C8: for every caller-supplied limit value, the limit sent
upstream by `search_cases`, `semantic_search` and `find_citing_cases`
is clamped into `[1, 20]` (values below 1 become 1, values above 20
become 20, in-range values pass unchanged); the request issued by each
of the three tools carries exactly the parameters built by
`_search_params`. -/
theorem limit_clamped_spec (token : String) (env : Upstream)
    (q c fa fb ob : String) (l cid : Int) :
    (1 ≤ (_search_params q c fa fb ob l).limit
      ∧ (_search_params q c fa fb ob l).limit ≤ 20
      ∧ (l < 1 → (_search_params q c fa fb ob l).limit = 1)
      ∧ (20 < l → (_search_params q c fa fb ob l).limit = 20)
      ∧ (1 ≤ l → l ≤ 20 → (_search_params q c fa fb ob l).limit = l))
    ∧ (token ≠ "" →
        (search_cases token env q c fa fb ob l).2
            = [Request.search (_search_params q c fa fb ob l)]
        ∧ (semantic_search token env q c fa fb l).2
            = [Request.search (_search_params q c fa fb "score desc" l)]
        ∧ (find_citing_cases token env cid c fa fb ob l).2
            = [Request.search
                (_search_params ("cites:(" ++ toString cid ++ ")") c fa fb ob l)]) := by
  constructor
  · refine ⟨?_, ?_, ?_, ?_, ?_⟩ <;> simp [_search_params] <;> omega
  · intro htok
    refine ⟨?_, ?_, ?_⟩ <;>
      simp only [search_cases, semantic_search, find_citing_cases, api_request,
        if_neg htok] <;>
      rcases outcomeResult (env.search _) with e | d <;> simp

/-- Witness for C8: `search_cases` with `limit = 500` sends limit 20. -/
theorem limit_clamped_spec_witness :
    (search_cases "t" envW "q" "" "" "" "score desc" 500).2
        = [Request.search (_search_params "q" "" "" "" "score desc" 500)]
      ∧ (_search_params "q" "" "" "" "score desc" 500).limit = 20 :=
  ⟨((limit_clamped_spec "t" envW "q" "" "" "" "score desc" 500 1).2
      (by decide)).1,
    (limit_clamped_spec "t" envW "q" "" "" "" "score desc" 500 1).1.2.2.2.1
      (by decide)⟩

/-- Strings that differ on their first `k` characters are different. -/
theorem ne_take {x y : String} (k : Nat) (h : x.data.take k ≠ y.data.take k) :
    x ≠ y := fun he => h (by rw [he])

/-- Appending preserves a lower bound on the data length. -/
theorem le_length_append (p a : String) (k : Nat) (hk : k ≤ p.data.length) :
    k ≤ (p ++ a).data.length := by
  rw [data_append, List.length_append]
  omega

/-- The first 8 characters of a generic-HTTP-error message. -/
theorem gen_take8 (a b c : String) :
    ((("Error: HTTP " ++ a) ++ b) ++ c).data.take 8 = "Error: H".data := by
  rw [take_data_append _ c 8 (le_length_append _ b 8 (le_length_append _ a 8 (by decide))),
    take_data_append _ b 8 (le_length_append _ a 8 (by decide)),
    take_data_append _ a 8 (by decide)]
  decide

/-- The first 8 characters of a connection-error message. -/
theorem conn_take8 (m : String) :
    ("Error: Connection failed — " ++ m).data.take 8 = "Error: C".data := by
  rw [take_data_append _ m 8 (by decide)]
  decide

/-- Claim C5: for every upstream HTTP response with a non-2xx status,
`api_request` returns a distinct error string determined by the status
code — 401 the invalid-credential message, 429 the rate-limit message
carrying the 5,000 requests/day quota, 404 the not-found message, any
other status a generic message containing the status code and at most
the first 300 characters of the response body — and a timeout and a
connection failure yield their own messages, all pairwise distinct. -/
theorem api_request_status_mapping (α : Type) (token : String) (req : Request)
    (body msg : String) (code : Nat) (htok : token ≠ "") :
    (api_request token req (HttpOutcome.httpError 401 body : HttpOutcome α)
        = (Except.error "Error: Invalid API token. Check COURTLISTENER_API_TOKEN.", [req]))
    ∧ (api_request token req (HttpOutcome.httpError 429 body : HttpOutcome α)
        = (Except.error "Error: Rate limit exceeded. CourtListener allows 5,000 requests/day.", [req]))
    ∧ (api_request token req (HttpOutcome.httpError 404 body : HttpOutcome α)
        = (Except.error "Error: Resource not found.", [req]))
    ∧ (code ≠ 401 → code ≠ 429 → code ≠ 404 →
        api_request token req (HttpOutcome.httpError code body : HttpOutcome α)
          = (Except.error ("Error: HTTP " ++ toString code ++ " — " ++ pySlice body 300), [req])
        ∧ (pySlice body 300).length ≤ 300)
    ∧ (api_request token req (HttpOutcome.timeout : HttpOutcome α)
        = (Except.error "Error: Request timed out after 30 seconds.", [req]))
    ∧ (api_request token req (HttpOutcome.connError msg : HttpOutcome α)
        = (Except.error ("Error: Connection failed — " ++ msg), [req]))
    ∧ ("Error: Invalid API token. Check COURTLISTENER_API_TOKEN."
          ≠ "Error: Rate limit exceeded. CourtListener allows 5,000 requests/day."
        ∧ "Error: Invalid API token. Check COURTLISTENER_API_TOKEN."
          ≠ "Error: Resource not found."
        ∧ "Error: Invalid API token. Check COURTLISTENER_API_TOKEN."
          ≠ "Error: Request timed out after 30 seconds."
        ∧ "Error: Rate limit exceeded. CourtListener allows 5,000 requests/day."
          ≠ "Error: Resource not found."
        ∧ "Error: Rate limit exceeded. CourtListener allows 5,000 requests/day."
          ≠ "Error: Request timed out after 30 seconds."
        ∧ "Error: Resource not found." ≠ "Error: Request timed out after 30 seconds."
        ∧ "Error: HTTP " ++ toString code ++ " — " ++ pySlice body 300
          ≠ "Error: Invalid API token. Check COURTLISTENER_API_TOKEN."
        ∧ "Error: HTTP " ++ toString code ++ " — " ++ pySlice body 300
          ≠ "Error: Rate limit exceeded. CourtListener allows 5,000 requests/day."
        ∧ "Error: HTTP " ++ toString code ++ " — " ++ pySlice body 300
          ≠ "Error: Resource not found."
        ∧ "Error: HTTP " ++ toString code ++ " — " ++ pySlice body 300
          ≠ "Error: Request timed out after 30 seconds."
        ∧ "Error: Connection failed — " ++ msg
          ≠ "Error: Invalid API token. Check COURTLISTENER_API_TOKEN."
        ∧ "Error: Connection failed — " ++ msg
          ≠ "Error: Rate limit exceeded. CourtListener allows 5,000 requests/day."
        ∧ "Error: Connection failed — " ++ msg ≠ "Error: Resource not found."
        ∧ "Error: Connection failed — " ++ msg
          ≠ "Error: Request timed out after 30 seconds."
        ∧ "Error: HTTP " ++ toString code ++ " — " ++ pySlice body 300
          ≠ "Error: Connection failed — " ++ msg) := by
  refine ⟨?_, ?_, ?_, ?_, ?_, ?_, ?_⟩
  · simp [api_request, outcomeResult, if_neg htok]
  · simp [api_request, outcomeResult, if_neg htok]
  · simp [api_request, outcomeResult, if_neg htok]
  · intro h1 h2 h3
    constructor
    · simp [api_request, outcomeResult, if_neg htok, if_neg h1, if_neg h2, if_neg h3]
    · have : pySlice body 300 = ⟨body.data.take 300⟩ := by
        simp [pySlice]
      rw [this]
      show (body.data.take 300).length ≤ 300
      rw [List.length_take]
      omega
  · simp [api_request, outcomeResult, if_neg htok]
  · simp [api_request, outcomeResult, if_neg htok]
  · refine ⟨by decide, by decide, by decide, by decide, by decide, by decide,
      ?_, ?_, ?_, ?_, ?_, ?_, ?_, ?_, ?_⟩
    · exact ne_take 8 (by rw [gen_take8]; decide)
    · exact ne_take 8 (by rw [gen_take8]; decide)
    · exact ne_take 8 (by rw [gen_take8]; decide)
    · exact ne_take 8 (by rw [gen_take8]; decide)
    · exact ne_take 8 (by rw [conn_take8]; decide)
    · exact ne_take 8 (by rw [conn_take8]; decide)
    · exact ne_take 8 (by rw [conn_take8]; decide)
    · exact ne_take 8 (by rw [conn_take8]; decide)
    · exact ne_take 8 (by rw [gen_take8, conn_take8]; decide)

/-- Witness for C5: a 500 response with body `"oops"` yields the
generic message, and a 429 response the rate-limit message. -/
theorem api_request_status_mapping_witness :
    api_request "t" (Request.cluster 1) (HttpOutcome.httpError 500 "oops" : HttpOutcome SearchData)
        = (Except.error ("Error: HTTP " ++ toString 500 ++ " — " ++ pySlice "oops" 300),
            [Request.cluster 1])
      ∧ api_request "t" (Request.cluster 1) (HttpOutcome.httpError 429 "" : HttpOutcome SearchData)
        = (Except.error "Error: Rate limit exceeded. CourtListener allows 5,000 requests/day.",
            [Request.cluster 1]) :=
  ⟨((api_request_status_mapping SearchData "t" (Request.cluster 1) "oops" "" 500
        (by decide)).2.2.2.1 (by decide) (by decide) (by decide)).1,
    (api_request_status_mapping SearchData "t" (Request.cluster 1) "" "" 500
        (by decide)).2.1⟩

/-- Counterexample to C1 as stated: with the credential absent,
`get_case_text` invoked with both ids 0 returns the argument-validation
error, not the configuration-error string (still zero network calls). -/
theorem missing_token_counterexample :
    get_case_text "" envW 0 0 50000
        = ("Error: Provide either cluster_id or opinion_id.", [])
      ∧ (get_case_text "" envW 0 0 50000).1 ≠ tokenErrMsg :=
  ⟨by rfl, by decide⟩

/-- Claim C1 (amended): with the credential absent, every tool call
returns the configuration-error string with zero upstream requests
issued — except `get_case_text` with both `cluster_id` and
`opinion_id` equal to 0, which returns the argument-validation error
`"Error: Provide either cluster_id or opinion_id."` first (also with
zero upstream requests). -/
theorem missing_token_spec (env : Upstream) (q c fa fb ob cit : String)
    (l cid oid mc ccid : Int) :
    search_cases "" env q c fa fb ob l = (tokenErrMsg, [])
    ∧ semantic_search "" env q c fa fb l = (tokenErrMsg, [])
    ∧ lookup_citation "" env cit = (tokenErrMsg, [])
    ∧ find_citing_cases "" env ccid c fa fb ob l = (tokenErrMsg, [])
    ∧ (¬(cid = 0 ∧ oid = 0) → get_case_text "" env cid oid mc = (tokenErrMsg, []))
    ∧ get_case_text "" env 0 0 mc
        = ("Error: Provide either cluster_id or opinion_id.", []) := by
  refine ⟨?_, ?_, ?_, ?_, ?_, ?_⟩
  · simp [search_cases, api_request]
  · simp [semantic_search, api_request]
  · simp [lookup_citation, api_request]
  · simp [find_citing_cases, api_request]
  · intro h
    by_cases hoid : oid = 0
    · have hcid : cid ≠ 0 := fun hc => h ⟨hc, hoid⟩
      simp [get_case_text, resolveOpinion, api_request, hcid, hoid]
    · simp [get_case_text, resolveOpinion, api_request, hoid, h]
  · simp [get_case_text]

/-- Witness for C1: concrete calls with the credential absent. -/
theorem missing_token_spec_witness :
    search_cases "" envW "q" "" "" "" "score desc" 10 = (tokenErrMsg, [])
      ∧ get_case_text "" envW 5 0 50000 = (tokenErrMsg, []) :=
  ⟨(missing_token_spec envW "q" "" "" "" "score desc" "x" 10 5 0 50000 3).1,
    (missing_token_spec envW "q" "" "" "" "score desc" "x" 10 5 0 50000 3).2.2.2.2.1
      (by decide)⟩

/-- An opinion payload whose only text-bearing field is a pure markup
string: tag stripping leaves the empty string. -/
def opC2 : OpinionPayload := ⟨"", "<p>", "", "", "", "", "", "", ""⟩

/-- Counterexample to C2 as stated: `html_with_citations` is non-empty
(`"<p>"`), yet the extraction returns the no-content error, because the
source re-tests `text` for truthiness after tag stripping. -/
theorem extract_text_counterexample :
    extractText opC2 3 = .error "Error: No text content available for opinion 3."
      ∧ opC2.html_with_citations ≠ "" :=
  ⟨by rfl, by decide⟩

/-- Claim C2 (amended): the plain-text field is returned verbatim
whenever non-empty; otherwise the first non-empty field of the fixed
ordered list is returned with markup tags removed, provided the
stripped result is non-empty; the error referencing the opinion id is
returned when every candidate field is empty, and also when the first
non-empty HTML field strips to the empty string. -/
theorem extract_text_spec (op : OpinionPayload) (oid : Int) :
    (op.plain_text ≠ "" → extractText op oid = .ok (op.plain_text, "plain_text"))
    ∧ (op.plain_text = "" → op.html_with_citations ≠ "" →
        extractText op oid
          = if stripTags op.html_with_citations = ""
            then .error ("Error: No text content available for opinion "
              ++ toString oid ++ ".")
            else .ok (stripTags op.html_with_citations, "html_with_citations"))
    ∧ (op.plain_text = "" → op.html_with_citations = "" → op.html ≠ "" →
        extractText op oid
          = if stripTags op.html = ""
            then .error ("Error: No text content available for opinion "
              ++ toString oid ++ ".")
            else .ok (stripTags op.html, "html"))
    ∧ (op.plain_text = "" → op.html_with_citations = "" → op.html = "" →
        op.html_columbia ≠ "" →
        extractText op oid
          = if stripTags op.html_columbia = ""
            then .error ("Error: No text content available for opinion "
              ++ toString oid ++ ".")
            else .ok (stripTags op.html_columbia, "html_columbia"))
    ∧ (op.plain_text = "" → op.html_with_citations = "" → op.html = "" →
        op.html_columbia = "" → op.html_lawbox ≠ "" →
        extractText op oid
          = if stripTags op.html_lawbox = ""
            then .error ("Error: No text content available for opinion "
              ++ toString oid ++ ".")
            else .ok (stripTags op.html_lawbox, "html_lawbox"))
    ∧ (op.plain_text = "" → op.html_with_citations = "" → op.html = "" →
        op.html_columbia = "" → op.html_lawbox = "" → op.html_anon_2020 ≠ "" →
        extractText op oid
          = if stripTags op.html_anon_2020 = ""
            then .error ("Error: No text content available for opinion "
              ++ toString oid ++ ".")
            else .ok (stripTags op.html_anon_2020, "html_anon_2020"))
    ∧ (op.plain_text = "" → op.html_with_citations = "" → op.html = "" →
        op.html_columbia = "" → op.html_lawbox = "" → op.html_anon_2020 = "" →
        op.xml_harvard ≠ "" →
        extractText op oid
          = if stripTags op.xml_harvard = ""
            then .error ("Error: No text content available for opinion "
              ++ toString oid ++ ".")
            else .ok (stripTags op.xml_harvard, "xml_harvard"))
    ∧ (op.plain_text = "" → op.html_with_citations = "" → op.html = "" →
        op.html_columbia = "" → op.html_lawbox = "" → op.html_anon_2020 = "" →
        op.xml_harvard = "" →
        extractText op oid
          = .error ("Error: No text content available for opinion "
              ++ toString oid ++ ".")) := by
  refine ⟨?_, ?_, ?_, ?_, ?_, ?_, ?_, ?_⟩ <;>
    intros <;>
    simp_all only [extractText, htmlFields, List.find?, ne_eq, ite_not,
      if_true, if_false] <;>
    split <;>
    simp_all

/-- Witness for C2: plain text wins when present; with plain text
empty, the first non-empty HTML field is tag-stripped. -/
theorem extract_text_spec_witness :
    extractText ⟨"body", "<p>x</p>", "", "", "", "", "", "", ""⟩ 9
        = .ok ("body", "plain_text")
      ∧ extractText ⟨"", "", "<i>x</i>", "", "", "", "", "", ""⟩ 9
        = .ok ("x", "html") := by
  constructor
  · exact (extract_text_spec ⟨"body", "<p>x</p>", "", "", "", "", "", "", ""⟩ 9).1
      (by decide)
  · have h := (extract_text_spec ⟨"", "", "<i>x</i>", "", "", "", "", "", ""⟩ 9).2.2.1
      (by decide) (by decide) (by decide)
    rw [h]
    rfl

/-- Counterexample to C3 as stated: with caller-supplied
`max_characters = -1` and a 5-character text, the claim would require
the included text to have length exactly `-1`; the code truncates via
Python slicing (`text[:-1]`), producing 4 characters, and appends the
notice with the literal `-1` threshold. -/
theorem truncation_counterexample :
    assemble "Unknown" "?" "" "" "plain_text" 7 "hello" (-1) ""
        = "Text Source: plain_text\nOpinion ID: 7\n\n--- OPINION TEXT ---\nhell"
          ++ "\n\n[Truncated at -1 characters. Full opinion: ]"
      ∧ ((5 : Int) > -1 ∧ ((pySlice "hello" (-1)).length : Int) ≠ -1) :=
  ⟨by decide, by decide, by decide⟩

/-- Claim C3 (amended): for non-negative `max_characters = K` and an
extracted text of length `L`: if `L > K` the text included in the
output has length exactly `K` and the truncation notice (stating the
`K`-character threshold and, when a case URL is available, the link to
the full document) is appended; if `L ≤ K` the text is included
unchanged and no truncation notice appears. -/
theorem truncation_spec (cn df au ty src url text : String) (oid K : Int)
    (hK : 0 ≤ K) :
    ((text.length : Int) > K →
      assemble cn df au ty src oid text K url
        = joinLines (metaLines cn df au ty src oid
            ++ ["", "--- OPINION TEXT ---", pySlice text K]
            ++ ["\n[Truncated at " ++ intComma K ++ " characters. Full opinion: "
                ++ (if url ≠ "" then "https://www.courtlistener.com" ++ url else "")
                ++ "]"])
      ∧ ((pySlice text K).length : Int) = K)
    ∧ ((text.length : Int) ≤ K →
      assemble cn df au ty src oid text K url
        = joinLines (metaLines cn df au ty src oid
            ++ ["", "--- OPINION TEXT ---", text])) := by
  constructor
  · intro hL
    constructor
    · simp [assemble, noticeLines, hL]
    · have hslice : pySlice text K = ⟨text.data.take K.toNat⟩ := by
        simp [pySlice, hK]
      rw [hslice]
      show (((text.data.take K.toNat).length : Nat) : Int) = K
      rw [List.length_take]
      have hlen : text.length = text.data.length := rfl
      omega
  · intro hL
    have hnot : ¬((text.length : Int) > K) := by omega
    simp [assemble, noticeLines, hnot]

/-- Witness for C3: truncation at 3 of a 5-character text, and the
unchanged case. -/
theorem truncation_spec_witness :
    assemble "Unknown" "?" "" "" "plain_text" 7 "hello" 3 ""
        = "Text Source: plain_text\nOpinion ID: 7\n\n--- OPINION TEXT ---\nhel"
          ++ "\n\n[Truncated at 3 characters. Full opinion: ]"
      ∧ ((pySlice "hello" 3).length : Int) = 3
      ∧ assemble "Unknown" "?" "" "" "plain_text" 7 "hi" 10 ""
        = "Text Source: plain_text\nOpinion ID: 7\n\n--- OPINION TEXT ---\nhi" := by
  have h1 := (truncation_spec "Unknown" "?" "" "" "plain_text" "" "hello" 7 3
    (by decide)).1 (by decide)
  have h2 := (truncation_spec "Unknown" "?" "" "" "plain_text" "" "hi" 7 10
    (by decide)).2 (by decide)
  refine ⟨?_, h1.2, ?_⟩
  · rw [h1.1]
    decide
  · rw [h2]
    decide

/-- Claim C4: `get_case_text` fails explicitly when both ids are 0;
with only a cluster id it fetches the cluster, fails if there are no
sub-opinion references, parses the opinion id from the first reference
(failing explicitly when the pattern does not match), and then fetches
exactly that opinion. -/
theorem get_case_text_cluster_resolution (token : String) (env : Upstream)
    (cid mc : Int) (htok : token ≠ "") (hcid : cid ≠ 0)
    (cd : ClusterPayload) (hcd : env.cluster cid = HttpOutcome.ok cd) :
    (∀ K : Int, get_case_text token env 0 0 K
        = ("Error: Provide either cluster_id or opinion_id.", []))
    ∧ (cd.sub_opinions = [] →
        get_case_text token env cid 0 mc
          = ("Error: No opinions found in cluster " ++ toString cid ++ ".",
              [Request.cluster cid]))
    ∧ (∀ firstRef rest, cd.sub_opinions = firstRef :: rest →
        (parseOpinionId (firstRef.getD "").data = none →
          get_case_text token env cid 0 mc
            = ("Error: Could not parse opinion ID from cluster data.",
                [Request.cluster cid]))
        ∧ (∀ n : Nat, parseOpinionId (firstRef.getD "").data = some n →
            (get_case_text token env cid 0 mc).2
              = [Request.cluster cid, Request.opinion (n : Int)])) := by
  refine ⟨?_, ?_, ?_⟩
  · intro K
    simp [get_case_text]
  · intro hsub
    simp [get_case_text, resolveOpinion, api_request, if_neg htok, hcid, hcd,
      outcomeResult, hsub]
  · intro firstRef rest hsub
    constructor
    · intro hparse
      simp [get_case_text, resolveOpinion, api_request, if_neg htok, hcid, hcd,
        outcomeResult, hsub, hparse]
    · intro n hparse
      have hres : resolveOpinion token env cid 0
          = .ok ((n : Int), cd.case_name.getD "Unknown", cd.date_filed.getD "?",
              cd.absolute_url.getD "", [Request.cluster cid]) := by
        simp [resolveOpinion, api_request, if_neg htok, hcd, outcomeResult,
          hsub, hparse]
      have hncid : ¬(cid = 0 ∧ (0 : Int) = 0) := fun hc => hcid hc.1
      simp only [get_case_text, if_neg hncid, hres]
      rcases hrq : outcomeResult (env.opinion (n : Int)) with e | od
      · simp [api_request, if_neg htok, hrq, hcid]
      · simp only [api_request, if_neg htok, if_false, ite_false]
        rw [hrq]
        rcases hext : extractText od (n : Int) with e | p <;>
          simp [hext, hcid]

/-- The cluster payload of the C4 scenario. -/
def cdC4 : ClusterPayload :=
  ⟨some "Roe v. Wade", some "1973-01-22", some "/x/",
    [some "https://x/opinions/987/"]⟩

/-- A concrete upstream environment for the C4 scenario. -/
def envC4 : Upstream :=
  { search := fun _ => HttpOutcome.timeout,
    citation := fun _ => HttpOutcome.timeout,
    cluster := fun i => if i = 12345 then HttpOutcome.ok cdC4 else HttpOutcome.timeout,
    opinion := fun _ => HttpOutcome.ok ⟨"TEXT", "", "", "", "", "", "", "", ""⟩ }

/-- Witness for C4: `get_case_text(cluster_id=12345, opinion_id=0)`
with `sub_opinions = ["https://x/opinions/987/"]` fetches opinion 987. -/
theorem get_case_text_cluster_resolution_witness :
    (get_case_text "t" envC4 12345 0 50000).2
        = [Request.cluster 12345, Request.opinion 987]
      ∧ get_case_text "t" envC4 0 0 50000
        = ("Error: Provide either cluster_id or opinion_id.", []) :=
  ⟨((get_case_text_cluster_resolution "t" envC4 12345 50000 (by decide)
        (by decide) cdC4 rfl).2.2 (some "https://x/opinions/987/") [] rfl).2
      987 rfl,
    (get_case_text_cluster_resolution "t" envC4 12345 50000 (by decide)
        (by decide) cdC4 rfl).1 50000⟩

/-- Strings with different first characters differ, in the
`prefix ++ rest` form the metadata lines take. -/
theorem ne_head (p q a b : String) (h : p.data.take 1 ≠ q.data.take 1)
    (hp : 1 ≤ p.data.length) (hq : 1 ≤ q.data.length) : p ++ a ≠ q ++ b :=
  append_ne_append p a q b 1 hp hq h

/-- The metadata lines built with the initial (cluster-less) values
`"Unknown"` / `"?"` contain no case-name line and no date line. -/
theorem metaLines_no_case_date (au ty src s : String) (oid : Int) :
    ("Case: " ++ s) ∉ metaLines "Unknown" "?" au ty src oid
    ∧ ("Date: " ++ s) ∉ metaLines "Unknown" "?" au ty src oid := by
  constructor <;>
  · by_cases hau : au = "" <;> by_cases hty : ty = "" <;>
      simp [metaLines, hau, hty] <;>
      and_intros <;>
      exact fun he => ne_head _ _ _ _ (by decide) (by decide) (by decide) he.symm

/-- Claim C10: when `opinion_id ≠ 0` the cluster endpoint is never
requested; the result does not depend on `cluster_id` (nor on the
cluster endpoint's behaviour) given the same upstream opinion
responses; and the successful output is assembled from the initial
`"Unknown"` / `"?"` metadata, whose lines contain no case-name and no
date line. -/
theorem get_case_text_opinion_only (token : String) (env env2 : Upstream)
    (cid cid2 oid mc : Int) (hoid : oid ≠ 0) :
    (∀ i : Int, Request.cluster i ∉ (get_case_text token env cid oid mc).2)
    ∧ ((∀ j : Int, env2.opinion j = env.opinion j) →
        get_case_text token env2 cid2 oid mc = get_case_text token env cid oid mc)
    ∧ (∀ od text source, token ≠ "" → env.opinion oid = HttpOutcome.ok od →
        extractText od oid = .ok (text, source) →
        get_case_text token env cid oid mc
          = (assemble "Unknown" "?" od.author_str od.type source oid text mc "",
              [Request.opinion oid])
        ∧ (∀ s : String,
            ("Case: " ++ s) ∉ metaLines "Unknown" "?" od.author_str od.type source oid
            ∧ ("Date: " ++ s) ∉ metaLines "Unknown" "?" od.author_str od.type source oid)) := by
  have hres : resolveOpinion token env cid oid = .ok (oid, "Unknown", "?", "", []) := by
    simp [resolveOpinion, hoid]
  have hg : ¬(cid = 0 ∧ oid = 0) := fun hc => hoid hc.2
  refine ⟨?_, ?_, ?_⟩
  · intro i
    simp only [get_case_text, if_neg hg, hres]
    by_cases htok : token = ""
    · simp [api_request, htok]
    · simp only [api_request, if_neg htok]
      rcases hrq : outcomeResult (env.opinion oid) with e | od
      · simp
      · rcases hext : extractText od oid with e | p <;> simp [hext]
  · intro hopeq
    have hres2 : resolveOpinion token env2 cid2 oid = .ok (oid, "Unknown", "?", "", []) := by
      simp [resolveOpinion, hoid]
    have hg2 : ¬(cid2 = 0 ∧ oid = 0) := fun hc => hoid hc.2
    simp only [get_case_text, if_neg hg, if_neg hg2, hres, hres2, api_request,
      hopeq oid]
  · intro od text source htok hop hext
    constructor
    · simp only [get_case_text, if_neg hg, hres, api_request, if_neg htok, hop,
        outcomeResult, hext]
      simp
    · intro s
      exact metaLines_no_case_date od.author_str od.type source s oid

/-- An environment agreeing with `envC4` on the opinion endpoint but
with a different cluster endpoint, for the C10 witness. -/
def envC10 : Upstream :=
  { search := fun _ => HttpOutcome.timeout,
    citation := fun _ => HttpOutcome.timeout,
    cluster := fun _ => HttpOutcome.connError "x",
    opinion := fun _ => HttpOutcome.ok ⟨"TEXT", "", "", "", "", "", "", "", ""⟩ }

/-- Witness for C10: with `opinion_id = 987` the request log holds only
the opinion request, and two runs differing in `cluster_id` (and in the
cluster endpoint's behaviour) coincide. -/
theorem get_case_text_opinion_only_witness :
    Request.cluster 12345 ∉ (get_case_text "t" envC4 12345 987 50000).2
      ∧ get_case_text "t" envC10 555 987 50000
        = get_case_text "t" envC4 12345 987 50000 := by
  constructor
  · exact (get_case_text_opinion_only "t" envC4 envC4 12345 12345 987 50000
      (by decide)).1 12345
  · exact (get_case_text_opinion_only "t" envC4 envC10 12345 555 987 50000
      (by decide)).2.1 (fun j => rfl)

/-- `joinLines` on a list with at least two elements peels the head. -/
theorem joinLines_cons (a : String) (l : List String) (hl : l ≠ []) :
    joinLines (a :: l) = a ++ "\n" ++ joinLines l := by
  cases l with
  | nil => exact absurd rfl hl
  | cons b t => rfl

/-- `numberFrom` yields one block per result. -/
theorem numberFrom_length (k : Nat) (l : List SearchCase) :
    (numberFrom k l).length = l.length := by
  induction l generalizing k with
  | nil => rfl
  | cons c rest ih => simp [numberFrom, ih]

/-- The `i`-th block of `numberFrom k l` is the block of the `i`-th
result, numbered `k + i`. -/
theorem numberFrom_getElem (k i : Nat) (l : List SearchCase) (h : i < l.length) :
    ∃ c, l[i]? = some c ∧ (numberFrom k l)[i]? = some (caseBlock (k + i) c) := by
  induction l generalizing k i with
  | nil => simp at h
  | cons a rest ih =>
    cases i with
    | zero => exact ⟨a, by simp, by simp [numberFrom]⟩
    | succ j =>
      obtain ⟨c, h1, h2⟩ := ih (k + 1) j (by simpa using h)
      refine ⟨c, by simpa using h1, ?_⟩
      have harith : k + 1 + j = k + (j + 1) := by omega
      simp only [numberFrom, List.getElem?_cons_succ, h2, harith]

/-- Claim C6: for an empty result list the output is exactly
`"No results found."` followed by the header, for any header; for
`N ≥ 1` results the output begins with the header annotated with the
payload's reported total count and consists of exactly `N` numbered
blocks after the header line, numbered `1..N` in input order. -/
theorem format_search_results_spec (data : SearchData) (header : String) :
    (data.results = [] →
      format_search_results data header = "No results found. " ++ header)
    ∧ (data.results ≠ [] →
        (∃ t, format_search_results data header
          = (header ++ " (" ++ toString data.count ++ " total results)") ++ t)
        ∧ format_search_results data header
          = joinLines (((header ++ " (" ++ toString data.count ++ " total results)") ++ "\n")
              :: numberFrom 1 data.results)
        ∧ (numberFrom 1 data.results).length = data.results.length
        ∧ (∀ i, i < data.results.length →
            ∃ c, data.results[i]? = some c
              ∧ (numberFrom 1 data.results)[i]? = some (caseBlock (i + 1) c)
              ∧ caseBlock (i + 1) c = toString (i + 1) ++ ". " ++ caseBlockBody c)) := by
  constructor
  · intro hres
    simp [format_search_results, hres]
  · intro hne
    have hnum : numberFrom 1 data.results ≠ [] := by
      cases hr : data.results with
      | nil => exact absurd hr hne
      | cons a rest => simp [hr, numberFrom]
    have hform : format_search_results data header
        = joinLines (((header ++ " (" ++ toString data.count ++ " total results)") ++ "\n")
            :: numberFrom 1 data.results) := by
      simp [format_search_results, hne]
    refine ⟨?_, hform, numberFrom_length 1 data.results, ?_⟩
    · refine ⟨"\n" ++ ("\n" ++ joinLines (numberFrom 1 data.results)), ?_⟩
      rw [hform, joinLines_cons _ _ hnum, String.append_assoc, String.append_assoc]
    · intro i hi
      obtain ⟨c, h1, h2⟩ := numberFrom_getElem 1 i data.results hi
      have harith : 1 + i = i + 1 := by omega
      rw [harith] at h2
      exact ⟨c, h1, h2, rfl⟩

/-- A concrete two-result payload for the C6 witness. -/
def dataC6 : SearchData :=
  ⟨57,
    [⟨some "A v. B", some "scotus", some "2000-01-01", CitesVal.strs ["1 U.S. 1"],
        some "sn<mark>ip</mark>", some "3", none, some "22", some "/ab/"⟩,
      ⟨none, none, none, CitesVal.absent, none, none, none, none, none⟩]⟩

/-- Witness for C6: the two-result payload yields the annotated header
and two blocks numbered 1 and 2; the empty payload yields exactly the
no-results line. -/
theorem format_search_results_spec_witness :
    format_search_results (SearchData.mk 0 []) "H" = "No results found. H"
      ∧ (numberFrom 1 dataC6.results).length = 2
      ∧ (∃ c, dataC6.results[1]? = some c
          ∧ (numberFrom 1 dataC6.results)[1]? = some (caseBlock 2 c)
          ∧ caseBlock 2 c = toString 2 ++ ". " ++ caseBlockBody c) := by
  refine ⟨(format_search_results_spec (SearchData.mk 0 []) "H").1 rfl, ?_, ?_⟩
  · exact ((format_search_results_spec dataC6 "H").2 (by simp [dataC6])).2.2.1
  · exact ((format_search_results_spec dataC6 "H").2 (by simp [dataC6])).2.2.2 1
      (by simp [dataC6])

/-- Counterexample to C7 as stated: a structured citation object with
an empty reporter field keeps the excess whitespace *between* the
volume and page fields — `.strip()` only removes leading and trailing
whitespace — so the joined string is `"1  5"`, not `"1 5"`. -/
theorem citation_join_counterexample :
    citationText (CitesVal.objs [⟨some "1", some "", some "5"⟩]) = "1  5"
      ∧ citationText (CitesVal.objs [⟨some "1", some "", some "5"⟩]) ≠ "1 5" :=
  ⟨by rfl, by decide⟩

/-- Claim C7 (amended): the joined citation string is always non-empty
(the literal fallback `"None"` replaces an empty join); a list of plain
citation strings is joined unchanged, comma-separated; a list of
structured volume/reporter/page objects renders each object as the
space-joined fields with leading and trailing (not interior) whitespace
stripped, comma-joined. -/
theorem citation_join_spec :
    (∀ cv, citationText cv ≠ "")
    ∧ (∀ l, pyJoin ", " l ≠ "" → citationText (CitesVal.strs l) = pyJoin ", " l)
    ∧ (∀ l, citeStrs (CitesVal.objs l)
        = l.map (fun c => pyStrip (c.volume.getD "" ++ " " ++ c.reporter.getD ""
            ++ " " ++ c.page.getD "")))
    ∧ (∀ cv, pyJoin ", " (citeStrs cv) = "" → citationText cv = "None") := by
  refine ⟨?_, ?_, ?_, ?_⟩
  · intro cv
    by_cases h : pyJoin ", " (citeStrs cv) = "" <;> simp [citationText, h]
  · intro l h
    simp [citationText, citeStrs, h]
  · intro l
    rfl
  · intro cv h
    simp [citationText, h]

/-- Witness for C7: a plain string list joins unchanged; an empty
structured list falls back to `"None"`. -/
theorem citation_join_spec_witness :
    citationText (CitesVal.strs ["410 U.S. 113", "93 S. Ct. 705"])
        = "410 U.S. 113, 93 S. Ct. 705"
      ∧ citationText (CitesVal.objs []) = "None" := by
  constructor
  · rw [citation_join_spec.2.1 ["410 U.S. 113", "93 S. Ct. 705"] (by decide)]
    rfl
  · exact citation_join_spec.2.2.2 (CitesVal.objs []) rfl

/-- Claim C9: a lookup entry whose resolution code is 404 yields the
`"No matching case found for this citation."` line and no case block
(no case-name, date, cluster-id or URL line); every entry's line group
ends with a blank separator line, and the final output is the
whitespace-trimmed join of the entries' lines. -/
theorem lookup_citation_404_spec (item : LookupItem)
    (hstatus : item.status = some 404) :
    (formatLookupItem item
      = ["Citation: " ++ item.citation.getD "?"]
        ++ (if item.normalized_citations ≠ [] then
              ["Normalized: " ++ pyJoin ", " item.normalized_citations] else [])
        ++ ["Status: 404", "No matching case found for this citation.", ""])
    ∧ "No matching case found for this citation." ∈ formatLookupItem item
    ∧ (∀ s : String,
        ("\nCase: " ++ s) ∉ formatLookupItem item
        ∧ ("Date Filed: " ++ s) ∉ formatLookupItem item
        ∧ ("Cluster ID: " ++ s) ∉ formatLookupItem item
        ∧ ("URL: " ++ s) ∉ formatLookupItem item)
    ∧ (∀ it : LookupItem, (formatLookupItem it).getLast? = some "")
    ∧ (∀ (env : Upstream) (token citation : String) (data : List LookupItem),
        token ≠ "" → env.citation citation = HttpOutcome.ok data → data ≠ [] →
        lookup_citation token env citation
          = (pyStrip (joinLines (data.flatMap formatLookupItem)),
              [Request.citationLookup citation])) := by
  have hs404 : "Status: " ++ optIntStr (some (404 : Int)) = "Status: 404" := by decide
  have heq : formatLookupItem item
      = ["Citation: " ++ item.citation.getD "?"]
        ++ (if item.normalized_citations ≠ [] then
              ["Normalized: " ++ pyJoin ", " item.normalized_citations] else [])
        ++ ["Status: 404", "No matching case found for this citation.", ""] := by
    simp [formatLookupItem, hstatus, hs404]
  refine ⟨heq, ?_, ?_, ?_, ?_⟩
  · rw [heq]
    simp
  · intro s
    rw [heq]
    by_cases hnorm : item.normalized_citations = [] <;>
      simp [hnorm] <;>
      and_intros <;>
      first
      | exact append_ne_append _ _ _ _ 2 (by decide) (by decide) (by decide)
      | exact (ne_str_append _ _ _ 2 (by decide) (by decide)).symm
  · intro it
    simp only [formatLookupItem, List.getLast?_append]
    rfl
  · intro env token citation data htok hresp hdata
    simp [lookup_citation, api_request, if_neg htok, hresp, outcomeResult, hdata]

/-- Witness for C9: the scenario entry for `"410 U.S. 113"` with
status 404. -/
theorem lookup_citation_404_spec_witness :
    formatLookupItem ⟨some "410 U.S. 113", ["410 U.S. 113"], some 404, ClustersVal.absent⟩
        = ["Citation: 410 U.S. 113", "Normalized: 410 U.S. 113", "Status: 404",
            "No matching case found for this citation.", ""]
      ∧ (∀ s : String, ("\nCase: " ++ s)
          ∉ formatLookupItem ⟨some "410 U.S. 113", ["410 U.S. 113"], some 404, ClustersVal.absent⟩) := by
  constructor
  · rw [(lookup_citation_404_spec
      ⟨some "410 U.S. 113", ["410 U.S. 113"], some 404, ClustersVal.absent⟩ rfl).1]
    rfl
  · intro s
    exact ((lookup_citation_404_spec
      ⟨some "410 U.S. 113", ["410 U.S. 113"], some 404, ClustersVal.absent⟩ rfl).2.2.1 s).1

end CourtListener
